import Mathlib

/-!
Shallow embedding of the PID-simulator core (controllers, plant models,
auto-tune search) over exact rational arithmetic, together with theorems
checking the natural-language specification against it.  Each definition
mirrors one JavaScript function of the repository; uninterpreted numeric
primitives of the host language (square root, pi, sensor-noise samples)
are passed in as explicit function parameters.
-/

namespace PidSim

/-- JavaScript idiom `Math.max(lo, Math.min(hi, x))` used throughout the
repository for saturation. -/
def clamp (lo hi x : ℚ) : ℚ := max lo (min hi x)

theorem le_clamp (lo hi x : ℚ) : lo ≤ clamp lo hi x := le_max_left _ _

theorem clamp_le (lo hi x : ℚ) (h : lo ≤ hi) : clamp lo hi x ≤ hi :=
  max_le h (min_le_left _ _)

theorem clamp_mem (lo hi x : ℚ) (h : lo ≤ hi) :
    lo ≤ clamp lo hi x ∧ clamp lo hi x ≤ hi :=
  ⟨le_clamp lo hi x, clamp_le lo hi x h⟩

theorem clamp_idem (lo hi x : ℚ) (h : lo ≤ hi) :
    clamp lo hi (clamp lo hi x) = clamp lo hi x := by
  unfold clamp
  rw [min_max_distrib_left, min_eq_right h, ← min_assoc, min_self,
    ← max_assoc, max_self]

theorem clamp_eq_self (lo hi x : ℚ) (h1 : lo ≤ x) (h2 : x ≤ hi) :
    clamp lo hi x = x := by
  unfold clamp
  rw [min_eq_right h2, max_eq_right h1]

/-! ## Basic positional PID controller (`src/js/pid-controller.js`) -/

/-- Gains, limits and derivative-filter factor of the basic `PIDController`
(fields `_Kp`, `_Ki`, `_Kd`, `_outputMin`, `_outputMax`, `_alpha`). -/
structure BasicConfig where
  Kp : ℚ
  Ki : ℚ
  Kd : ℚ
  outputMin : ℚ
  outputMax : ℚ
  alpha : ℚ
deriving DecidableEq

/-- Mutable memory of the basic `PIDController`. -/
structure BasicState where
  proportionalTerm : ℚ
  integralTerm : ℚ
  derivativeTerm : ℚ
  lastError : ℚ
  lastProcessVariable : ℚ
deriving DecidableEq

/-- Fresh basic controller state (all class-field initializers are zero). -/
def basicInitState : BasicState := ⟨0, 0, 0, 0, 0⟩

/-- `PIDController.update(setpoint, processVariable, deltaTime)`:
returns the new state and the saturated output. -/
def basicUpdate (c : BasicConfig) (s : BasicState) (sp pv dt : ℚ) :
    BasicState × ℚ :=
  if dt ≤ 0 then (s, s.proportionalTerm + s.integralTerm + s.derivativeTerm)
  else
    let error := sp - pv
    let proportionalTerm := c.Kp * error
    let pvDerivative := (pv - s.lastProcessVariable) / dt
    let derivativeTerm := c.alpha * pvDerivative + (1 - c.alpha) * s.derivativeTerm
    let integralIncrement := c.Ki * error * dt
    let preOutput := proportionalTerm + s.integralTerm + integralIncrement -
      c.Kd * derivativeTerm
    let output := clamp c.outputMin c.outputMax preOutput
    let integralTerm := s.integralTerm + integralIncrement + (output - preOutput)
    let integralTerm := clamp c.outputMin c.outputMax integralTerm
    (⟨proportionalTerm, integralTerm, derivativeTerm, error, pv⟩, output)

/-- `PIDController.reset()`. -/
def basicReset (s : BasicState) : BasicState :=
  { s with integralTerm := 0, lastError := 0, lastProcessVariable := 0,
           derivativeTerm := 0 }

/-! ## Advanced industrial PID controller (`src/js/advanced-pid.js`) -/

/-- `config.integralMode`: the two values the configuration contract admits. -/
inductive IntegralMode where
  | standard
  | conditional
deriving DecidableEq

/-- `config.antiWindupMethod`: the two values the configuration contract admits. -/
inductive AntiWindupMethod where
  | clamping
  | backCalculation
deriving DecidableEq

/-- The `config` object of `AdvancedPIDController`. -/
structure AdvConfig where
  outputMin : ℚ
  outputMax : ℚ
  derivativeFilter : ℚ
  setpointWeightP : ℚ
  setpointWeightD : ℚ
  integralMode : IntegralMode
  antiWindupMethod : AntiWindupMethod
deriving DecidableEq

/-- The gain triple `_Kp`, `_Ki`, `_Kd` of `AdvancedPIDController`. -/
structure Gains where
  Kp : ℚ
  Ki : ℚ
  Kd : ℚ
deriving DecidableEq

/-- The `metrics` object of `AdvancedPIDController`. -/
structure AdvMetrics where
  integralAbsoluteError : ℚ
  integralSquaredError : ℚ
  integralTimeAbsoluteError : ℚ
  maxOutput : ℚ
  outputVariability : ℚ
  lastOutputs : List ℚ
deriving DecidableEq

/-- The mutable instance state of `AdvancedPIDController`: the `state` and
`terms` objects, the performance metrics and the accumulated simulation
time. -/
structure AdvState where
  lastError : ℚ
  lastPV : ℚ
  integralSum : ℚ
  derivativeFiltered : ℚ
  lastOutput : ℚ
  isManual : Bool
  manualOutput : ℚ
  termP : ℚ
  termI : ℚ
  termD : ℚ
  termTotal : ℚ
  metrics : AdvMetrics
  simulationTime : ℚ
deriving DecidableEq

/-- Metrics object of a freshly constructed controller. -/
def advInitMetrics : AdvMetrics := ⟨0, 0, 0, 0, 0, []⟩

/-- State of a freshly constructed `AdvancedPIDController`. -/
def advInitState : AdvState :=
  { lastError := 0, lastPV := 0, integralSum := 0, derivativeFiltered := 0,
    lastOutput := 0, isManual := false, manualOutput := 0,
    termP := 0, termI := 0, termD := 0, termTotal := 0,
    metrics := advInitMetrics, simulationTime := 0 }

/-- `AdvancedPIDController.reset()`: every mutable field is assigned its
freshly-constructed value (gains and configuration are untouched). -/
def advReset (_ : AdvState) : AdvState := advInitState

/-- Saturation of the advanced controller's output to its configured limits. -/
def saturate (cfg : AdvConfig) (x : ℚ) : ℚ := clamp cfg.outputMin cfg.outputMax x

/-- The setpoint-weighted proportional term,
`Kp * (setpointWeightP * setpoint - processVariable)`. -/
def advTermP (cfg : AdvConfig) (g : Gains) (sp pv : ℚ) : ℚ :=
  g.Kp * (cfg.setpointWeightP * sp - pv)

/-- Advance of the integral accumulator: unconditional `error * dt` in
standard mode; in conditional mode only when the previous output is not
near saturation or the product of error and accumulator is negative. -/
def advIntegralAdvance (cfg : AdvConfig) (s : AdvState) (error dt : ℚ) : ℚ :=
  match cfg.integralMode with
  | .conditional =>
      if ¬(|cfg.outputMax * (95 / 100)| ≤ |s.lastOutput|) ∨
          error * s.integralSum < 0 then
        s.integralSum + error * dt
      else s.integralSum
  | .standard => s.integralSum + error * dt

/-- New value of the first-order filtered derivative of the process
variable (note the sign flip on the raw derivative). -/
def advDerivFiltered (cfg : AdvConfig) (s : AdvState) (pv dt : ℚ) : ℚ :=
  cfg.derivativeFilter * (-((pv - s.lastPV) / dt)) +
    (1 - cfg.derivativeFilter) * s.derivativeFiltered

/-- Setpoint-weighted derivative-of-setpoint contribution. -/
def advSetpointDerivEffect (cfg : AdvConfig) (s : AdvState) (sp dt : ℚ) : ℚ :=
  cfg.setpointWeightD * (sp - s.lastPV) / dt

/-- The derivative term `Kd * (derivativeFiltered + derivativeSetpointEffect)`. -/
def advTermD (cfg : AdvConfig) (g : Gains) (s : AdvState) (sp pv dt : ℚ) : ℚ :=
  g.Kd * (advDerivFiltered cfg s pv dt + advSetpointDerivEffect cfg s sp dt)

/-- The unsaturated output, `terms.proportional + terms.integral +
terms.derivative`, before the anti-windup block runs. -/
def advRawOutput (cfg : AdvConfig) (g : Gains) (s : AdvState) (sp pv dt : ℚ) : ℚ :=
  advTermP cfg g sp pv + g.Ki * advIntegralAdvance cfg s (sp - pv) dt +
    advTermD cfg g s sp pv dt

/-- The anti-windup block of `AdvancedPIDController.update`: takes the
advanced integral accumulator, the integral term and the raw output and
returns their adjusted values.  The clamping branch divides the excess by
`Ki` with no guard, exactly as the source does; the back-calculation
branch tests `Ki != 0` before adjusting. -/
def antiWindup (cfg : AdvConfig) (g : Gains) (dt iSum termI rawOut : ℚ) :
    ℚ × ℚ × ℚ :=
  match cfg.antiWindupMethod with
  | .clamping =>
      let satOut := saturate cfg rawOut
      if satOut ≠ rawOut then
        let excess := rawOut - satOut
        let iSum2 := iSum - excess / g.Ki
        (iSum2, g.Ki * iSum2, satOut)
      else (iSum, termI, rawOut)
  | .backCalculation =>
      let satOut := saturate cfg rawOut
      if satOut ≠ rawOut ∧ g.Ki ≠ 0 then
        let iSum2 := iSum + (satOut - rawOut) / 1 * dt
        (iSum2, g.Ki * iSum2, satOut)
      else (iSum, termI, satOut)

/-- `AdvancedPIDController.updateMetrics(error, output, deltaTime)`. -/
def advUpdateMetrics (simTime : ℚ) (m : AdvMetrics) (error output dt : ℚ) :
    AdvMetrics :=
  let iae := m.integralAbsoluteError + |error| * dt
  let ise := m.integralSquaredError + error * error * dt
  let itae := m.integralTimeAbsoluteError + simTime * |error| * dt
  let maxOut := max m.maxOutput |output|
  let outs0 := m.lastOutputs ++ [output]
  let outs := if 50 < outs0.length then outs0.drop 1 else outs0
  let variability :=
    if 1 < outs.length then
      let changes := List.zipWith (fun a b => |a - b|) (outs.drop 1) outs
      changes.sum / (changes.length : ℚ)
    else m.outputVariability
  ⟨iae, ise, itae, maxOut, variability, outs⟩

/-- `AdvancedPIDController.update(setpoint, processVariable, deltaTime)`:
returns the new instance state and the returned output. -/
def advUpdate (cfg : AdvConfig) (g : Gains) (s : AdvState) (sp pv dt : ℚ) :
    AdvState × ℚ :=
  let s1 := { s with simulationTime := s.simulationTime + dt }
  if dt ≤ 0 then (s1, s.lastOutput)
  else if s.isManual then
    ({ s1 with lastOutput := s.manualOutput }, s.manualOutput)
  else
    let error := sp - pv
    let termP := advTermP cfg g sp pv
    let iSum1 := advIntegralAdvance cfg s error dt
    let termI1 := g.Ki * iSum1
    let dFilt := advDerivFiltered cfg s pv dt
    let termD := advTermD cfg g s sp pv dt
    let rawOut := termP + termI1 + termD
    let aw := antiWindup cfg g dt iSum1 termI1 rawOut
    let out := aw.2.2
    ({ lastError := error, lastPV := pv, integralSum := aw.1,
       derivativeFiltered := dFilt, lastOutput := out,
       isManual := s.isManual, manualOutput := s.manualOutput,
       termP := termP, termI := aw.2.1, termD := termD, termTotal := out,
       metrics := advUpdateMetrics s1.simulationTime s.metrics error out dt,
       simulationTime := s1.simulationTime }, out)

/-- `AdvancedPIDController.setManualMode(isManual, manualOutput = 0)`.
The final unconditional assignment overwrites the bumpless capture, as in
the source. -/
def setManualMode (g : Gains) (s : AdvState) (isManual : Bool)
    (manualOutput : ℚ) : AdvState :=
  let s2 :=
    if isManual = true ∧ s.isManual = false then
      { s with manualOutput := s.lastOutput }
    else if isManual = false ∧ s.isManual = true then
      { s with integralSum := s.manualOutput / g.Ki, termI := s.manualOutput }
    else s
  let s3 := { s2 with isManual := isManual }
  if isManual then { s3 with manualOutput := manualOutput } else s3

/-- Whether the unguarded division `excessOutput / Ki` inside the clamping
anti-windup branch is reached on a given call: true exactly when the call
passes the timestep and manual-mode guards, the method is clamping, and
the raw output saturates. -/
def clampingDivExecuted (cfg : AdvConfig) (g : Gains) (s : AdvState)
    (sp pv dt : ℚ) : Prop :=
  ¬(dt ≤ 0) ∧ s.isManual = false ∧
    cfg.antiWindupMethod = AntiWindupMethod.clamping ∧
    saturate cfg (advRawOutput cfg g s sp pv dt) ≠
      advRawOutput cfg g s sp pv dt

/-- Feeding a list of `(setpoint, pv, dt)` triples to the advanced
controller, collecting the returned outputs. -/
def advRun (cfg : AdvConfig) (g : Gains) : AdvState → List (ℚ × ℚ × ℚ) → List ℚ
  | _, [] => []
  | s, (sp, pv, dt) :: rest =>
      let r := advUpdate cfg g s sp pv dt
      r.2 :: advRun cfg g r.1 rest

/-! ## Mechanical plant (`src/js/plant-models.js`, `MechanicalSystem`) -/

/-- One entry of the transport-delay buffer: a past input and its timestamp. -/
structure DelayEntry where
  value : ℚ
  time : ℚ
deriving DecidableEq

/-- A `MechanicalSystem` instance: physical parameters, noise/delay
configuration, and the mutable state (`state`, `_disturbance`, the delay
buffer and the simulation clock) all live on the same object. -/
structure MechSys where
  inertia : ℚ
  friction : ℚ
  load : ℚ
  noiseEnabled : Bool
  noiseAmplitude : ℚ
  delayEnabled : Bool
  delayTime : ℚ
  position : ℚ
  velocity : ℚ
  disturbance : ℚ
  delayBuffer : List DelayEntry
  simulationTime : ℚ
deriving DecidableEq

/-- `MechanicalSystem` constructor. -/
def mechInit (inertia friction load : ℚ) (noiseEnabled : Bool)
    (noiseAmplitude : ℚ) (delayEnabled : Bool) (delayTime : ℚ)
    (initialPosition : ℚ) : MechSys :=
  { inertia := inertia, friction := friction, load := load,
    noiseEnabled := noiseEnabled, noiseAmplitude := noiseAmplitude,
    delayEnabled := delayEnabled, delayTime := delayTime,
    position := initialPosition, velocity := 0, disturbance := 0,
    delayBuffer := [], simulationTime := 0 }

/-- `MechanicalSystem._applyDelay(input, dt)`: push the current input,
drop entries older than three delay times, and take the newest buffered
value whose timestamp is at or before `now - delayTime` (falling back to
the raw input).  Returns the effective input and the new buffer. -/
def applyDelay (delayTime : ℚ) (buffer : List DelayEntry)
    (simTime input : ℚ) : ℚ × List DelayEntry :=
  let buffer1 := buffer ++ [⟨input, simTime⟩]
  let cutoff := simTime - delayTime * 3
  let buffer2 := buffer1.filter (fun e => decide (cutoff < e.time))
  let target := simTime - delayTime
  let out :=
    match buffer2.reverse.find? (fun e => decide (e.time ≤ target)) with
    | some e => e.value
    | none => input
  (out, buffer2)

/-- `MechanicalSystem.update(controlOutput, dt)`.  The sensor-noise sample
(a sum of two sines and a random draw in the source) is abstracted as the
function parameter `noiseFn` of the simulation clock.  Returns the new
instance and the reported `measuredPosition`.  Note: the control output is
fed to the force balance with no saturation of any kind. -/
def mechUpdate (noiseFn : ℚ → ℚ) (m : MechSys) (controlOutput dt : ℚ) :
    MechSys × ℚ :=
  let simulationTime := m.simulationTime + dt
  let ad :=
    if m.delayEnabled then
      applyDelay m.delayTime m.delayBuffer simulationTime controlOutput
    else (controlOutput, m.delayBuffer)
  let actualOutput := ad.1
  let frictionForce := -m.friction * m.velocity
  let loadForce := -m.load
  let netForce := actualOutput + m.disturbance + frictionForce + loadForce
  let acceleration := netForce / m.inertia
  let velocity := m.velocity + acceleration * dt
  let position := m.position + velocity * dt
  let measuredPosition :=
    if m.noiseEnabled then position + noiseFn simulationTime * m.noiseAmplitude
    else position
  ({ m with position := position, velocity := velocity,
            delayBuffer := ad.2, simulationTime := simulationTime },
    measuredPosition)

/-- `MechanicalSystem.reset()`: zeroes velocity, disturbance, the delay
buffer and the clock — the position is left untouched. -/
def mechReset (m : MechSys) : MechSys :=
  { m with velocity := 0, disturbance := 0, delayBuffer := [],
           simulationTime := 0 }

/-! ## Thermal plant (`src/js/system-analyser.js`, `TemperatureControlSystem`) -/

/-- A `TemperatureControlSystem` instance: thermal parameters plus the
mutable state and disturbances. -/
structure TempSys where
  thermalCapacity : ℚ
  thermalResistance : ℚ
  ambientTemp : ℚ
  maxHeatingPower : ℚ
  timeConstant : ℚ
  temperature : ℚ
  heatFlow : ℚ
  ambientTempChange : ℚ
  doorOpening : Bool
  doorOpeningEffect : ℚ
  simulationTime : ℚ
deriving DecidableEq

/-- `TemperatureControlSystem` constructor. -/
def tempInit (thermalCapacity thermalResistance ambientTemp maxHeatingPower : ℚ) :
    TempSys :=
  { thermalCapacity := thermalCapacity, thermalResistance := thermalResistance,
    ambientTemp := ambientTemp, maxHeatingPower := maxHeatingPower,
    timeConstant := thermalCapacity * thermalResistance,
    temperature := ambientTemp, heatFlow := 0,
    ambientTempChange := 0, doorOpening := false, doorOpeningEffect := -50,
    simulationTime := 0 }

/-- Snapshot returned by `TemperatureControlSystem.update`. -/
structure TempOut where
  processVariable : ℚ
  actualOutput : ℚ
  disturbanceEffect : ℚ
  thermalLoss : ℚ
deriving DecidableEq

/-- `TemperatureControlSystem.update(heatingPower, dt)`: the heating power
is saturated to `[0, maxHeatingPower]` before the energy balance. -/
def tempUpdate (t : TempSys) (heatingPower dt : ℚ) : TempSys × TempOut :=
  let simulationTime := t.simulationTime + dt
  let actualPower := clamp 0 t.maxHeatingPower heatingPower
  let currentAmbient := t.ambientTemp + t.ambientTempChange
  let thermalLoss := (t.temperature - currentAmbient) / t.thermalResistance
  let doorEffect := if t.doorOpening then t.doorOpeningEffect else 0
  let netHeatFlow := actualPower - thermalLoss + doorEffect
  let tempChange := netHeatFlow / t.thermalCapacity
  let temperature := t.temperature + tempChange * dt
  ({ t with temperature := temperature, heatFlow := netHeatFlow,
            simulationTime := simulationTime },
    ⟨temperature, actualPower, doorEffect, thermalLoss⟩)

/-- `TemperatureControlSystem.reset()`. -/
def tempReset (t : TempSys) : TempSys :=
  { t with temperature := t.ambientTemp, heatFlow := 0,
           ambientTempChange := 0, doorOpening := false, simulationTime := 0 }

/-! ## Tank-level plant (`TankLevelSystem`) -/

/-- A `TankLevelSystem` instance. -/
structure TankSys where
  tankArea : ℚ
  maxOutletFlow : ℚ
  outletCoefficient : ℚ
  maxLevel : ℚ
  level : ℚ
  inletFlow : ℚ
  outletFlow : ℚ
  inletFlowVariation : ℚ
  leakage : ℚ
  simulationTime : ℚ
deriving DecidableEq

/-- `TankLevelSystem` constructor (initial level 1.0 m, base inlet flow
0.02 m³/s). -/
def tankInit (tankArea maxOutletFlow outletCoefficient maxLevel : ℚ) : TankSys :=
  { tankArea := tankArea, maxOutletFlow := maxOutletFlow,
    outletCoefficient := outletCoefficient, maxLevel := maxLevel,
    level := 1, inletFlow := 1 / 50, outletFlow := 0,
    inletFlowVariation := 0, leakage := 0, simulationTime := 0 }

/-- Snapshot returned by `TankLevelSystem.update`. -/
structure TankOut where
  processVariable : ℚ
  actualOutput : ℚ
  inletFlow : ℚ
  outletFlow : ℚ
  netFlow : ℚ
deriving DecidableEq

/-- `TankLevelSystem.update(valveOpening, dt)`: the valve opening is
saturated to 0–100 % before use, and after integration the level is
clamped to `[0, maxLevel]`.  `Math.sqrt` is abstracted as `sqrtFn`. -/
def tankUpdate (sqrtFn : ℚ → ℚ) (t : TankSys) (valveOpening dt : ℚ) :
    TankSys × TankOut :=
  let simulationTime := t.simulationTime + dt
  let actualValveOpening := clamp 0 100 valveOpening / 100
  let pressureHead := max 0 t.level
  let outletFlow := actualValveOpening * t.maxOutletFlow * sqrtFn pressureHead
  let actualInletFlow := t.inletFlow + t.inletFlowVariation
  let leakageFlow := t.leakage
  let netFlow := actualInletFlow - outletFlow - leakageFlow
  let levelChange := netFlow / t.tankArea
  let level0 := t.level + levelChange * dt
  let level := clamp 0 t.maxLevel level0
  ({ t with level := level, outletFlow := outletFlow,
            simulationTime := simulationTime },
    ⟨level, actualValveOpening * 100, actualInletFlow, outletFlow, netFlow⟩)

/-- `TankLevelSystem.reset()` (the base `inletFlow` field is not touched). -/
def tankReset (t : TankSys) : TankSys :=
  { t with level := 1, outletFlow := 0, inletFlowVariation := 0,
           leakage := 0, simulationTime := 0 }

/-! ## Motor-speed plant (`MotorSpeedSystem`) -/

/-- A `MotorSpeedSystem` instance. -/
structure MotorSys where
  inertia : ℚ
  friction : ℚ
  torqueConstant : ℚ
  maxCurrent : ℚ
  gearRatio : ℚ
  angularVelocity : ℚ
  rpm : ℚ
  torque : ℚ
  loadTorque : ℚ
  frictionVariation : ℚ
  simulationTime : ℚ
deriving DecidableEq

/-- `MotorSpeedSystem` constructor. -/
def motorInit (inertia friction torqueConstant maxCurrent gearRatioArg : ℚ) :
    MotorSys :=
  { inertia := inertia, friction := friction, torqueConstant := torqueConstant,
    maxCurrent := maxCurrent, gearRatio := gearRatioArg,
    angularVelocity := 0, rpm := 0, torque := 0,
    loadTorque := 0, frictionVariation := 1, simulationTime := 0 }

/-- Snapshot returned by `MotorSpeedSystem.update`. -/
structure MotorOut where
  processVariable : ℚ
  actualOutput : ℚ
  motorTorque : ℚ
  frictionTorque : ℚ
  loadTorque : ℚ
deriving DecidableEq

/-- `MotorSpeedSystem.update(currentCommand, dt)`: the current command is
saturated to `[-maxCurrent, maxCurrent]` before the torque balance.
`Math.PI` is abstracted as the parameter `piVal`. -/
def motorUpdate (piVal : ℚ) (m : MotorSys) (currentCommand dt : ℚ) :
    MotorSys × MotorOut :=
  let simulationTime := m.simulationTime + dt
  let actualCurrent := clamp (-m.maxCurrent) m.maxCurrent currentCommand
  let motorTorque := m.torqueConstant * actualCurrent
  let frictionTorque := m.friction * m.frictionVariation * m.angularVelocity
  let loadTorque := m.loadTorque
  let netTorque := motorTorque - frictionTorque - loadTorque
  let acceleration := netTorque / m.inertia
  let angularVelocity := m.angularVelocity + acceleration * dt
  let rpm := angularVelocity * 60 / (2 * piVal) * m.gearRatio
  ({ m with angularVelocity := angularVelocity, rpm := rpm,
            torque := motorTorque, simulationTime := simulationTime },
    ⟨rpm, actualCurrent, motorTorque, frictionTorque, loadTorque⟩)

/-- `MotorSpeedSystem.reset()`. -/
def motorReset (m : MotorSys) : MotorSys :=
  { m with angularVelocity := 0, rpm := 0, torque := 0,
           loadTorque := 0, frictionVariation := 1, simulationTime := 0 }

/-! ## Pressure plant (`PressureControlSystem`) -/

/-- A `PressureControlSystem` instance (gas constant 287 and atmospheric
pressure 101325 are literals in the source). -/
structure PressureSys where
  volume : ℚ
  temperature : ℚ
  maxInletFlow : ℚ
  outletCoefficient : ℚ
  pressure : ℚ
  mass : ℚ
  outletFlowVariation : ℚ
  leakage : ℚ
  temperatureChange : ℚ
  simulationTime : ℚ
deriving DecidableEq

/-- `PressureControlSystem` constructor. -/
def pressureInit (volume temperature maxInletFlow outletCoefficient : ℚ) :
    PressureSys :=
  { volume := volume, temperature := temperature,
    maxInletFlow := maxInletFlow, outletCoefficient := outletCoefficient,
    pressure := 101325 + 50000,
    mass := (101325 + 50000) * volume / (287 * temperature),
    outletFlowVariation := 1, leakage := 0, temperatureChange := 0,
    simulationTime := 0 }

/-- Snapshot returned by `PressureControlSystem.update`. -/
structure PressureOut where
  processVariable : ℚ
  actualOutput : ℚ
  inletFlow : ℚ
  outletFlow : ℚ
  netFlow : ℚ
deriving DecidableEq

/-- `PressureControlSystem.update(valveOpening, dt)`: the valve opening is
saturated to 0–100 % before the mass balance.  `Math.sqrt` is abstracted
as `sqrtFn`. -/
def pressureUpdate (sqrtFn : ℚ → ℚ) (p : PressureSys) (valveOpening dt : ℚ) :
    PressureSys × PressureOut :=
  let simulationTime := p.simulationTime + dt
  let actualValveOpening := clamp 0 100 valveOpening / 100
  let inletMassFlow := actualValveOpening * p.maxInletFlow
  let pressureDiff := max 0 (p.pressure - 101325)
  let outletMassFlow := p.outletCoefficient * p.outletFlowVariation *
    sqrtFn pressureDiff
  let leakageMassFlow := p.leakage
  let netMassFlow := inletMassFlow - outletMassFlow - leakageMassFlow
  let mass0 := p.mass + netMassFlow * dt
  let mass := max (1 / 1000) mass0
  let currentTemp := p.temperature + p.temperatureChange
  let pressure := mass * 287 * currentTemp / p.volume
  ({ p with pressure := pressure, mass := mass,
            simulationTime := simulationTime },
    ⟨(pressure - 101325) / 1000, actualValveOpening * 100, inletMassFlow,
      outletMassFlow, netMassFlow⟩)

/-- `PressureControlSystem.reset()`: the mass is recomputed from the reset
pressure via the ideal-gas law, as in the source. -/
def pressureReset (p : PressureSys) : PressureSys :=
  { p with pressure := 101325 + 50000,
           mass := (101325 + 50000) * p.volume / (287 * p.temperature),
           outletFlowVariation := 1, leakage := 0, temperatureChange := 0,
           simulationTime := 0 }

/-! ## Auto-tune search (`SimulationApp.runAutoTuneLogic`) -/

/-- A recorded oscillation peak `{value, time}`. -/
structure Peak where
  value : ℚ
  time : ℚ
deriving DecidableEq

/-- The `autoTune` session object.  `lastPeak` starts as
`{value: -Infinity, time: 0}` in the source, modelled as `none`. -/
structure AutoTuneState where
  initialKp : ℚ
  kpStep : ℚ
  lastPeak : Option Peak
  peaks : List Peak
  oscillationPeriod : ℚ
  ultimateGain : ℚ
deriving DecidableEq

/-- Comparison `prevPv > this.autoTune.lastPeak.value`; against the
initial `-Infinity` sentinel every value wins. -/
def beatsLastPeak (x : ℚ) : Option Peak → Bool
  | none => true
  | some p => decide (p.value < x)

/-- Result of one `runAutoTuneLogic` call: the new session state, the
controller's proportional gain after the call (the source calls
`setGains(newKp, 0, 0)` when it raises it), the edge-trigger flag
`kpIncreasedThisSecond`, and whether `finishAutoTune` was invoked
(oscillation identified). -/
structure TuneResult where
  tune : AutoTuneState
  Kp : ℚ
  kpIncreasedThisSecond : Bool
  identified : Bool
deriving DecidableEq

/-- The body run when a new record peak is detected: push it, and once
more than four peaks exist keep the last four and compare the first and
most recent; on a stable amplitude store the ultimate gain (current `Kp`)
and the mean inter-peak interval, signalling identification. -/
def tunePeakStep (setpoint Kp : ℚ) (t0 : AutoTuneState)
    (prevPv currentTime : ℚ) : AutoTuneState × Bool :=
  let np : Peak := ⟨prevPv, currentTime⟩
  let t1 := { t0 with lastPeak := some np, peaks := t0.peaks ++ [np] }
  if 4 < t1.peaks.length then
    let t2 := { t1 with peaks := t1.peaks.drop 1 }
    let firstPeak := t2.peaks.getD 0 ⟨0, 0⟩
    let lastPk := t2.peaks.getD 3 ⟨0, 0⟩
    if |lastPk.value - firstPeak.value| < setpoint * (5 / 100) then
      ({ t2 with ultimateGain := Kp,
                 oscillationPeriod :=
                   (lastPk.time - firstPeak.time) /
                     ((t2.peaks.length : ℚ) - 1) }, true)
    else (t2, false)
  else (t1, false)

/-- `SimulationApp.runAutoTuneLogic(pv, currentTime)`.  `history` is the
charted process-variable series (the current `pv` is appended only later
in the tick), `Kp` the controller's current proportional gain, `kpFlag`
the field `kpIncreasedThisSecond`. -/
def runAutoTuneLogic (setpoint Kp : ℚ) (kpFlag : Bool) (t0 : AutoTuneState)
    (history : List ℚ) (pv currentTime : ℚ) : TuneResult :=
  if history.length < 3 then ⟨t0, Kp, kpFlag, false⟩
  else
    let prevPv := history.getD (history.length - 2) 0
    let prevPrevPv := history.getD (history.length - 3) 0
    let pk :=
      if (pv < prevPv ∧ prevPrevPv < prevPv) ∧
          beatsLastPeak prevPv t0.lastPeak = true then
        tunePeakStep setpoint Kp t0 prevPv currentTime
      else (t0, false)
    if pk.2 then ⟨pk.1, Kp, kpFlag, true⟩
    else
      let fl : ℤ := ⌊currentTime⌋
      if fl % 5 = 0 ∧ 0 < fl ∧ kpFlag = false then
        ⟨pk.1, Kp + pk.1.kpStep, true, false⟩
      else if ¬(fl % 5 = 0) then ⟨pk.1, Kp, false, false⟩
      else ⟨pk.1, Kp, kpFlag, false⟩

/-! ## Helper lemmas and concrete instances -/

/-- Default configuration of the advanced controller as built by the app:
limits −100/100, filter 0.1, weights 1/0, standard integral mode, clamping
anti-windup. -/
def cfgD : AdvConfig :=
  ⟨-100, 100, 1 / 10, 1, 0, IntegralMode.standard, AntiWindupMethod.clamping⟩

/-- A PI gain set. -/
def gD : Gains := ⟨1, 1 / 2, 0⟩

/-- A proportional-only gain set (`Ki = 0`). -/
def gKi0 : Gains := ⟨1, 0, 0⟩

/-- Frictionless unit-inertia mechanical plant with no load, noise or
delay, starting at the origin. -/
def mechC : MechSys := mechInit 1 0 0 false (1 / 2) false (1 / 10) 0

theorem antiWindup_out_mem (cfg : AdvConfig) (g : Gains) (dt i ti r : ℚ)
    (hlim : cfg.outputMin ≤ cfg.outputMax) :
    cfg.outputMin ≤ (antiWindup cfg g dt i ti r).2.2 ∧
      (antiWindup cfg g dt i ti r).2.2 ≤ cfg.outputMax := by
  unfold antiWindup saturate
  cases hm : cfg.antiWindupMethod
  · simp only
    split
    · exact clamp_mem _ _ _ hlim
    · next h =>
        rw [not_ne_iff] at h
        rw [← h]
        exact clamp_mem _ _ _ hlim
  · simp only
    split <;> exact clamp_mem _ _ _ hlim

theorem antiWindup_out_of_mem (cfg : AdvConfig) (g : Gains) (dt i ti r : ℚ)
    (h1 : cfg.outputMin ≤ r) (h2 : r ≤ cfg.outputMax) :
    (antiWindup cfg g dt i ti r).2.2 = r := by
  unfold antiWindup saturate
  cases hm : cfg.antiWindupMethod <;>
    simp [clamp_eq_self _ _ _ h1 h2]

theorem advIntegralAdvance_zero (cfg : AdvConfig) (s : AdvState) (dt : ℚ) :
    advIntegralAdvance cfg s 0 dt = s.integralSum := by
  unfold advIntegralAdvance
  cases hm : cfg.integralMode
  · simp
  · split <;> simp

/-! ## C1: output saturation invariant outside manual mode -/

/-- C1: whenever `dt > 0` and the output limits are ordered, a non-manual
`update` of the advanced controller returns an output inside
`[outputMin, outputMax]`, while in manual mode it returns exactly the
stored operator value; the basic controller's `update` output is likewise
saturated. -/
theorem C1_output_within_limits (cfg : AdvConfig) (g : Gains) (s : AdvState)
    (sp pv dt : ℚ) (hdt : 0 < dt) (hlim : cfg.outputMin ≤ cfg.outputMax) :
    (s.isManual = false →
      cfg.outputMin ≤ (advUpdate cfg g s sp pv dt).2 ∧
        (advUpdate cfg g s sp pv dt).2 ≤ cfg.outputMax) ∧
    (s.isManual = true → (advUpdate cfg g s sp pv dt).2 = s.manualOutput) ∧
    (∀ (c : BasicConfig) (bs : BasicState) (sp2 pv2 dt2 : ℚ), 0 < dt2 →
      c.outputMin ≤ c.outputMax →
      c.outputMin ≤ (basicUpdate c bs sp2 pv2 dt2).2 ∧
        (basicUpdate c bs sp2 pv2 dt2).2 ≤ c.outputMax) := by
  refine ⟨fun hman => ?_, fun hman => ?_, fun c bs sp2 pv2 dt2 hdt2 hlim2 => ?_⟩
  · unfold advUpdate
    rw [if_neg (not_le.mpr hdt)]
    simp only [hman, Bool.false_eq_true, if_false]
    exact antiWindup_out_mem cfg g dt _ _ _ hlim
  · unfold advUpdate
    rw [if_neg (not_le.mpr hdt)]
    simp [hman]
  · unfold basicUpdate
    rw [if_neg (not_le.mpr hdt2)]
    exact clamp_mem _ _ _ hlim2

/-- Witness for C1 at a concrete non-manual controller call. -/
theorem C1_witness :
    0 < (1 / 25 : ℚ) ∧
      (advInitState.isManual = false →
        cfgD.outputMin ≤ (advUpdate cfgD gD advInitState 80 0 (1 / 25)).2 ∧
          (advUpdate cfgD gD advInitState 80 0 (1 / 25)).2 ≤ cfgD.outputMax) :=
  ⟨by norm_num,
    (C1_output_within_limits cfgD gD advInitState 80 0 (1 / 25) (by norm_num)
      (by norm_num [cfgD])).1⟩

/-! ## C10: the basic controller's integral term is re-clamped each tick -/

/-- C10: after every basic `update` with `dt > 0` and ordered limits, the
stored integral term lies within the output limits. -/
theorem C10_basic_integral_clamped (c : BasicConfig) (s : BasicState)
    (sp pv dt : ℚ) (hdt : 0 < dt) (hlim : c.outputMin ≤ c.outputMax) :
    c.outputMin ≤ (basicUpdate c s sp pv dt).1.integralTerm ∧
      (basicUpdate c s sp pv dt).1.integralTerm ≤ c.outputMax := by
  unfold basicUpdate
  rw [if_neg (not_le.mpr hdt)]
  exact clamp_mem _ _ _ hlim

/-- Witness for C10 at a concrete call. -/
theorem C10_witness :
    0 < (1 : ℚ) ∧
      (-100 : ℚ) ≤ (basicUpdate ⟨2, 1, 0, -100, 100, 1 / 10⟩ basicInitState
        500 0 1).1.integralTerm := by
  refine ⟨by norm_num, ?_⟩
  exact (C10_basic_integral_clamped ⟨2, 1, 0, -100, 100, 1 / 10⟩ basicInitState
    500 0 1 (by norm_num) (by norm_num)).1

/-! ## C9: the tank level is clamped into range after integration -/

/-- C9: after every `TankLevelSystem.update` (any input, any `dt`, any
square-root primitive) the stored level lies within `[0, maxLevel]` and
the returned `processVariable` is exactly that clamped level. -/
theorem C9_tank_level_clamped (sqrtFn : ℚ → ℚ) (t : TankSys) (u dt : ℚ)
    (hm : 0 ≤ t.maxLevel) :
    0 ≤ (tankUpdate sqrtFn t u dt).1.level ∧
      (tankUpdate sqrtFn t u dt).1.level ≤ t.maxLevel ∧
      (tankUpdate sqrtFn t u dt).2.processVariable =
        (tankUpdate sqrtFn t u dt).1.level := by
  refine ⟨?_, ?_, rfl⟩
  · exact le_clamp _ _ _
  · exact clamp_le _ _ _ hm

/-- Witness for C9 on the app's tank with a huge valve command. -/
theorem C9_witness :
    0 ≤ (tankInit 2 (1 / 20) (1 / 10) 5).maxLevel ∧
      0 ≤ (tankUpdate (fun x => x) (tankInit 2 (1 / 20) (1 / 10) 5)
        1000 (1 / 25)).1.level := by
  refine ⟨by norm_num [tankInit], ?_⟩
  exact (C9_tank_level_clamped (fun x => x) (tankInit 2 (1 / 20) (1 / 10) 5)
    1000 (1 / 25) (by norm_num [tankInit])).1

/-! ## C8: reset plus identical feeds give identical output sequences -/

/-- C8: a controller that has been `reset()` and a freshly constructed
controller with the same configuration and gains produce identical output
sequences on any identical list of `(setpoint, pv, dt)` calls. -/
theorem C8_reset_determinism (cfg : AdvConfig) (g : Gains) (s : AdvState)
    (inputs : List (ℚ × ℚ × ℚ)) :
    advRun cfg g (advReset s) inputs = advRun cfg g advInitState inputs := rfl

/-! ## C2: behaviour of update calls with a non-positive timestep -/

/-- C2 counterexample: with `dt = -1` the mechanical plant's `update`
mutates its state (the velocity moves to −10), and even the advanced
controller's `update` mutates its simulation clock before the `dt ≤ 0`
guard runs — so a `dt ≤ 0` call is not free of state mutation. -/
theorem C2_counterexample :
    ((mechUpdate (fun _ => 0) mechC 10 (-1)).1.velocity = -10 ∧
      (mechUpdate (fun _ => 0) mechC 10 (-1)).1.velocity ≠ mechC.velocity) ∧
    ((advUpdate cfgD gD advInitState 0 0 (-1)).1.simulationTime = -1 ∧
      (advUpdate cfgD gD advInitState 0 0 (-1)).1.simulationTime ≠
        advInitState.simulationTime) := by
  refine ⟨⟨?_, ?_⟩, ⟨?_, ?_⟩⟩ <;>
    norm_num [mechUpdate, mechC, mechInit, advUpdate, advInitState,
      advInitMetrics]

/-- C2 amended: for `dt ≤ 0` the advanced controller returns the last
output and changes nothing except the unconditionally accumulated
simulation clock, and the basic controller mutates nothing and returns
the sum of its three stored terms; the plant updates have no timestep
guard at all (counterexample). -/
theorem C2_amended (cfg : AdvConfig) (g : Gains) (s : AdvState)
    (sp pv dt : ℚ) (hdt : dt ≤ 0) :
    advUpdate cfg g s sp pv dt =
      ({ s with simulationTime := s.simulationTime + dt }, s.lastOutput) ∧
    (∀ (c : BasicConfig) (bs : BasicState) (sp2 pv2 dt2 : ℚ), dt2 ≤ 0 →
      basicUpdate c bs sp2 pv2 dt2 =
        (bs, bs.proportionalTerm + bs.integralTerm + bs.derivativeTerm)) := by
  constructor
  · unfold advUpdate
    rw [if_pos hdt]
  · intro c bs sp2 pv2 dt2 h2
    unfold basicUpdate
    rw [if_pos h2]

/-- Witness for C2 amended at a concrete `dt = 0` call. -/
theorem C2_witness :
    (0 : ℚ) ≤ 0 ∧
      advUpdate cfgD gD advInitState 80 5 0 =
        ({ advInitState with
            simulationTime := advInitState.simulationTime + 0 },
          advInitState.lastOutput) :=
  ⟨le_refl 0, (C2_amended cfgD gD advInitState 80 5 0 (le_refl 0)).1⟩

/-! ## C3: the clamping anti-windup division is not guarded on Ki = 0 -/

/-- C3: on a saturating tick with `Ki = 0` and the clamping anti-windup
method selected, the source reaches the division `excessOutput / Ki`
unguarded — the branch condition tests only for saturation, contradicting
the spec's guarded-no-op policy (in IEEE arithmetic the accumulator
becomes −Infinity and the integral term NaN). -/
theorem C3_division_unguarded :
    clampingDivExecuted cfgD gKi0 advInitState 1000 0 1 ∧ gKi0.Ki = 0 := by
  refine ⟨⟨by norm_num, rfl, rfl, ?_⟩, rfl⟩
  norm_num [advRawOutput, advTermP, advIntegralAdvance, advTermD,
    advDerivFiltered, advSetpointDerivEffect, saturate, clamp, cfgD, gKi0,
    advInitState]

/-! ## C6: what reset restores, per plant variant -/

/-- C6 counterexample: the mechanical plant's `reset()` does not restore
the initial position — after one update moved the position to 1, reset
leaves it at 1 while the plant was constructed at position 0. -/
theorem C6_counterexample :
    (mechReset (mechUpdate (fun _ => 0) mechC 1 1).1).position = 1 ∧
      mechC.position = 0 ∧
      (mechReset (mechUpdate (fun _ => 0) mechC 1 1).1).position ≠
        mechC.position := by
  refine ⟨?_, ?_, ?_⟩ <;>
    norm_num [mechReset, mechUpdate, mechC, mechInit]

/-- C6 amended: `reset()` restores the freshly-constructed state (and
leaves the configuration parameters unchanged) for the thermal, tank,
motor and pressure plants — for the tank, the never-mutated base
`inletFlow` included — while the mechanical plant's reset zeroes velocity,
disturbance, the delay buffer and the clock but keeps the current
position. -/
theorem C6_reset_behaviour :
    (∀ t : TempSys, t.doorOpeningEffect = -50 →
      t.timeConstant = t.thermalCapacity * t.thermalResistance →
      tempReset t = tempInit t.thermalCapacity t.thermalResistance
        t.ambientTemp t.maxHeatingPower) ∧
    (∀ t : TankSys, t.inletFlow = 1 / 50 →
      tankReset t = tankInit t.tankArea t.maxOutletFlow
        t.outletCoefficient t.maxLevel) ∧
    (∀ m : MotorSys, motorReset m = motorInit m.inertia m.friction
      m.torqueConstant m.maxCurrent m.gearRatio) ∧
    (∀ p : PressureSys, pressureReset p = pressureInit p.volume
      p.temperature p.maxInletFlow p.outletCoefficient) ∧
    (∀ m : MechSys, (mechReset m).position = m.position ∧
      (mechReset m).velocity = 0 ∧ (mechReset m).disturbance = 0 ∧
      (mechReset m).delayBuffer = [] ∧ (mechReset m).simulationTime = 0 ∧
      (mechReset m).inertia = m.inertia ∧
      (mechReset m).friction = m.friction ∧
      (mechReset m).load = m.load) := by
  refine ⟨fun t h1 h2 => ?_, fun t h1 => ?_, fun m => ?_, fun p => ?_,
    fun m => ?_⟩
  · simp [tempReset, tempInit, h1, h2]
  · simp [tankReset, tankInit, h1]
  · simp [motorReset, motorInit]
  · simp [pressureReset, pressureInit]
  · simp [mechReset]

/-- Witness for C6 amended on the app's thermal plant after one update. -/
theorem C6_witness :
    (tempUpdate (tempInit 500 (1 / 10) 25 2000) 1500 (1 / 25)).1.doorOpeningEffect
        = -50 ∧
      tempReset (tempUpdate (tempInit 500 (1 / 10) 25 2000) 1500 (1 / 25)).1 =
        tempInit 500 (1 / 10) 25 2000 := by
  refine ⟨by simp [tempUpdate, tempInit], ?_⟩
  have h := (C6_reset_behaviour).1
    (tempUpdate (tempInit 500 (1 / 10) 25 2000) 1500 (1 / 25)).1
    (by simp [tempUpdate, tempInit]) (by simp [tempUpdate, tempInit])
  simpa [tempUpdate, tempInit] using h

/-! ## C5: plant-side saturation of the manipulated input -/

/-- C5 counterexample: there is no range `[lo, hi]` to which the
mechanical plant clamps its input force before the balance — updating with
any force beyond a candidate range changes the state differently from
updating with the clamped force. -/
theorem C5_counterexample :
    ¬ ∃ lo hi : ℚ, ∀ u : ℚ,
      mechUpdate (fun _ => 0) mechC u 1 =
        mechUpdate (fun _ => 0) mechC (clamp lo hi u) 1 := by
  rintro ⟨lo, hi, h⟩
  have hvel : ∀ u : ℚ, (mechUpdate (fun _ => 0) mechC u 1).1.velocity = u := by
    intro u
    simp [mechUpdate, mechC, mechInit]
  have h1 := congrArg (fun r => r.1.velocity) (h (max lo hi + 1))
  simp only [hvel] at h1
  have h2 : clamp lo hi (max lo hi + 1) ≤ max lo hi := by
    unfold clamp
    refine max_le (le_max_left _ _) ?_
    exact le_trans (min_le_left _ _) (le_max_right _ _)
  rw [← h1] at h2
  linarith

/-- C5 amended: the thermal, tank, motor and pressure plants clamp the
manipulated input to its physical range before the balance (the state
update depends on the input only through the clamped value, and the
reported `actualOutput` lies in that range); the mechanical plant applies
no such saturation (counterexample). -/
theorem C5_plant_input_saturation :
    (∀ (t : TempSys) (u dt : ℚ), 0 ≤ t.maxHeatingPower →
      tempUpdate t u dt = tempUpdate t (clamp 0 t.maxHeatingPower u) dt ∧
      0 ≤ (tempUpdate t u dt).2.actualOutput ∧
      (tempUpdate t u dt).2.actualOutput ≤ t.maxHeatingPower) ∧
    (∀ (f : ℚ → ℚ) (t : TankSys) (u dt : ℚ),
      tankUpdate f t u dt = tankUpdate f t (clamp 0 100 u) dt ∧
      0 ≤ (tankUpdate f t u dt).2.actualOutput ∧
      (tankUpdate f t u dt).2.actualOutput ≤ 100) ∧
    (∀ (piVal : ℚ) (m : MotorSys) (u dt : ℚ), 0 ≤ m.maxCurrent →
      motorUpdate piVal m u dt =
        motorUpdate piVal m (clamp (-m.maxCurrent) m.maxCurrent u) dt ∧
      -m.maxCurrent ≤ (motorUpdate piVal m u dt).2.actualOutput ∧
      (motorUpdate piVal m u dt).2.actualOutput ≤ m.maxCurrent) ∧
    (∀ (f : ℚ → ℚ) (p : PressureSys) (u dt : ℚ),
      pressureUpdate f p u dt = pressureUpdate f p (clamp 0 100 u) dt ∧
      0 ≤ (pressureUpdate f p u dt).2.actualOutput ∧
      (pressureUpdate f p u dt).2.actualOutput ≤ 100) := by
  have h100 : (0 : ℚ) ≤ 100 := by norm_num
  refine ⟨fun t u dt h => ⟨?_, ?_, ?_⟩, fun f t u dt => ⟨?_, ?_, ?_⟩,
    fun piVal m u dt h => ⟨?_, ?_, ?_⟩, fun f p u dt => ⟨?_, ?_, ?_⟩⟩
  · simp [tempUpdate, clamp_idem _ _ _ h]
  · exact le_clamp _ _ _
  · exact clamp_le _ _ _ h
  · simp [tankUpdate, clamp_idem _ _ _ h100]
  · have := le_clamp 0 100 u
    simp only [tankUpdate]
    nlinarith
  · have := clamp_le 0 100 u h100
    simp only [tankUpdate]
    nlinarith
  · simp [motorUpdate, clamp_idem _ _ _ (neg_le_self h)]
  · exact le_clamp _ _ _
  · exact clamp_le _ _ _ (neg_le_self h)
  · simp [pressureUpdate, clamp_idem _ _ _ h100]
  · have := le_clamp 0 100 u
    simp only [pressureUpdate]
    nlinarith
  · have := clamp_le 0 100 u h100
    simp only [pressureUpdate]
    nlinarith

/-- Witness for C5 amended on the app's thermal plant with an
out-of-range heating command. -/
theorem C5_witness :
    (0 : ℚ) ≤ (tempInit 500 (1 / 10) 25 2000).maxHeatingPower ∧
      tempUpdate (tempInit 500 (1 / 10) 25 2000) 99999 (1 / 25) =
        tempUpdate (tempInit 500 (1 / 10) 25 2000)
          (clamp 0 (tempInit 500 (1 / 10) 25 2000).maxHeatingPower 99999)
          (1 / 25) := by
  refine ⟨by norm_num [tempInit], ?_⟩
  exact ((C5_plant_input_saturation).1 (tempInit 500 (1 / 10) 25 2000)
    99999 (1 / 25) (by norm_num [tempInit])).1

/-! ## C4: manual/auto transitions and bumpless transfer -/

theorem advUpdate_steady (cfg : AdvConfig) (g : Gains) (s : AdvState)
    (pv dt : ℚ) (hdt : 0 < dt) (hman : s.isManual = false)
    (hwp : cfg.setpointWeightP = 1) (hlpv : s.lastPV = pv)
    (hdf : s.derivativeFiltered = 0)
    (hlo : cfg.outputMin ≤ g.Ki * s.integralSum)
    (hhi : g.Ki * s.integralSum ≤ cfg.outputMax) :
    (advUpdate cfg g s pv pv dt).2 = g.Ki * s.integralSum := by
  have hP : advTermP cfg g pv pv = 0 := by
    unfold advTermP
    rw [hwp]
    ring
  have hI : advIntegralAdvance cfg s (pv - pv) dt = s.integralSum := by
    rw [sub_self]
    exact advIntegralAdvance_zero cfg s dt
  have hD : advTermD cfg g s pv pv dt = 0 := by
    unfold advTermD advDerivFiltered advSetpointDerivEffect
    rw [hlpv, hdf, sub_self]
    simp
  unfold advUpdate
  rw [if_neg (not_le.mpr hdt)]
  simp only [hman, Bool.false_eq_true, if_false, hP, hI, hD, zero_add,
    add_zero]
  exact antiWindup_out_of_mem cfg g dt _ _ _ hlo hhi

/-- C4 amended: switching to manual sets the manual value to the
caller-supplied argument (overwriting the captured last automatic
output); switching back to automatic with `Ki ≠ 0` reconstructs the
accumulator as `manualOutput / Ki`, so the integral term alone reproduces
the manual output exactly, and — when the loop is at equilibrium
(setpoint = pv = lastPV, filtered derivative zero, unit proportional
setpoint weight, manual output within the limits) — the first automatic
tick returns exactly the manual output, i.e. no discontinuity. -/
theorem C4_manual_auto_transfer (cfg : AdvConfig) (g : Gains)
    (s1 s2 : AdvState) (arg sp pv dt mo : ℚ)
    (h1 : s1.isManual = false) (h2 : s2.isManual = true)
    (hmo : s2.manualOutput = mo) (hKi : g.Ki ≠ 0) (hdt : 0 < dt)
    (hwp : cfg.setpointWeightP = 1) (hsp : sp = pv) (hlpv : s2.lastPV = pv)
    (hdf : s2.derivativeFiltered = 0) (hlo : cfg.outputMin ≤ mo)
    (hhi : mo ≤ cfg.outputMax) :
    (setManualMode g s1 true arg).manualOutput = arg ∧
    (setManualMode g s2 false 0).integralSum = mo / g.Ki ∧
    g.Ki * (setManualMode g s2 false 0).integralSum = mo ∧
    (setManualMode g s2 false 0).termI = mo ∧
    (advUpdate cfg g (setManualMode g s2 false 0) sp pv dt).2 = mo := by
  have hs : setManualMode g s2 false 0 =
      { s2 with integralSum := s2.manualOutput / g.Ki,
                termI := s2.manualOutput, isManual := false } := by
    simp [setManualMode, h2]
  have hcancel : g.Ki * (mo / g.Ki) = mo := by
    rw [mul_comm]
    exact div_mul_cancel₀ mo hKi
  have hKiI : g.Ki * (setManualMode g s2 false 0).integralSum = mo := by
    rw [hs]
    simp [hmo, hcancel]
  refine ⟨?_, ?_, ?_, ?_, ?_⟩
  · simp [setManualMode, h1]
  · rw [hs]
    simp [hmo]
  · exact hKiI
  · rw [hs]
    simp [hmo]
  · rw [hsp]
    have hst := advUpdate_steady cfg g (setManualMode g s2 false 0)
      pv dt hdt (by rw [hs]) hwp (by rw [hs]; simpa using hlpv)
      (by rw [hs]; simpa using hdf) (by rw [hKiI]; exact hlo)
      (by rw [hKiI]; exact hhi)
    rw [hst, hKiI]

/-- C4 counterexample: after an automatic tick that left
`lastOutput = 63`, switching to manual with the source's default argument
(`setManualMode(true)`, i.e. `manualOutput = 0`) leaves the manual value
at 0, not at the captured 63 — the final unconditional assignment
overwrites the bumpless capture. -/
theorem C4_counterexample :
    ((advUpdate cfgD gD advInitState 42 0 1).1).lastOutput = 63 ∧
      (setManualMode gD (advUpdate cfgD gD advInitState 42 0 1).1
        true 0).manualOutput = 0 ∧
      (setManualMode gD (advUpdate cfgD gD advInitState 42 0 1).1
        true 0).manualOutput ≠
        ((advUpdate cfgD gD advInitState 42 0 1).1).lastOutput := by
  refine ⟨?_, ?_, ?_⟩ <;>
    norm_num [advUpdate, advTermP, advIntegralAdvance, advDerivFiltered,
      advSetpointDerivEffect, advTermD, antiWindup, saturate, clamp,
      setManualMode, cfgD, gD, advInitState, advInitMetrics]

/-- Witness for C4 amended: a controller sitting in manual at output 7 in
an equilibrated loop, switched back to automatic. -/
theorem C4_witness :
    gD.Ki ≠ 0 ∧
      (advUpdate cfgD gD
        (setManualMode gD
          { advInitState with isManual := true, manualOutput := 7,
                              lastPV := 5 } false 0) 5 5 (1 / 25)).2 = 7 := by
  refine ⟨by norm_num [gD], ?_⟩
  exact (C4_manual_auto_transfer cfgD gD advInitState
    { advInitState with isManual := true, manualOutput := 7, lastPV := 5 }
    3 5 5 (1 / 25) 7 rfl rfl rfl (by norm_num [gD]) (by norm_num) rfl rfl
    rfl rfl (by norm_num [cfgD]) (by norm_num [cfgD])).2.2.2.2

/-! ## C7: stable-oscillation identification in the auto-tune search -/

/-- C7: when a fifth record peak is detected (four already stored), the
tuner keeps the last four, compares the first and most recent of them,
and — their amplitude difference being under 5 % of the setpoint — stores
the current `Kp` as ultimate gain and the mean inter-peak interval of
those four as ultimate period, and signals identification. -/
theorem C7_oscillation_identified (setpoint Kp : ℚ) (kpFlag : Bool)
    (t0 : AutoTuneState) (history : List ℚ)
    (pv currentTime prevPv prevPrevPv : ℚ) (p1 p2 p3 p4 lp : Peak)
    (hlen : 3 ≤ history.length)
    (hprev : history.getD (history.length - 2) 0 = prevPv)
    (hprev2 : history.getD (history.length - 3) 0 = prevPrevPv)
    (hpk1 : pv < prevPv) (hpk2 : prevPrevPv < prevPv)
    (hlast : t0.lastPeak = some lp) (hbeats : lp.value < prevPv)
    (hpeaks : t0.peaks = [p1, p2, p3, p4])
    (hstable : |prevPv - p2.value| < setpoint * (5 / 100)) :
    runAutoTuneLogic setpoint Kp kpFlag t0 history pv currentTime =
      ⟨{ t0 with lastPeak := some ⟨prevPv, currentTime⟩,
                 peaks := [p2, p3, p4, ⟨prevPv, currentTime⟩],
                 ultimateGain := Kp,
                 oscillationPeriod := (currentTime - p2.time) / 3 },
        Kp, kpFlag, true⟩ := by
  have hc1 : ¬(history.length < 3) := not_lt.mpr hlen
  have hcond2 : (pv < prevPv ∧ prevPrevPv < prevPv) ∧
      beatsLastPeak prevPv t0.lastPeak = true := by
    rw [hlast]
    refine ⟨⟨hpk1, hpk2⟩, ?_⟩
    simp only [beatsLastPeak, decide_eq_true_eq]
    exact hbeats
  have hstable2 : |prevPv - p2.value| < setpoint * (1 / 20) := by
    have h : setpoint * (5 / 100) = setpoint * (1 / 20) := by ring
    rw [← h]
    exact hstable
  have hpk : tunePeakStep setpoint Kp t0 prevPv currentTime =
      ({ t0 with lastPeak := some ⟨prevPv, currentTime⟩,
                 peaks := [p2, p3, p4, ⟨prevPv, currentTime⟩],
                 ultimateGain := Kp,
                 oscillationPeriod := (currentTime - p2.time) / 3 },
        true) := by
    unfold tunePeakStep
    simp only [hpeaks]
    norm_num [List.getD, hstable2]
  unfold runAutoTuneLogic
  rw [if_neg hc1]
  simp only [hprev, hprev2]
  rw [if_pos hcond2, hpk]
  simp

/-- Witness for C7: a concrete fifth peak of value 5 at time 9 joining
four stored peaks of slowly growing amplitude, with setpoint 100 and
current gain 3: ultimate gain 3 and ultimate period (9−3)/3 = 2. -/
theorem C7_witness :
    (3 : ℕ) ≤ ([0, 5, 3] : List ℚ).length ∧
      runAutoTuneLogic 100 3 false
        ⟨1 / 2, 1 / 5, some ⟨23 / 5, 7⟩,
          [⟨4, 1⟩, ⟨21 / 5, 3⟩, ⟨22 / 5, 5⟩, ⟨23 / 5, 7⟩], 0, 0⟩
        [0, 5, 3] 3 9 =
      ⟨⟨1 / 2, 1 / 5, some ⟨5, 9⟩,
          [⟨21 / 5, 3⟩, ⟨22 / 5, 5⟩, ⟨23 / 5, 7⟩, ⟨5, 9⟩], 2, 3⟩,
        3, false, true⟩ := by
  refine ⟨by norm_num, ?_⟩
  have h := C7_oscillation_identified 100 3 false
    ⟨1 / 2, 1 / 5, some ⟨23 / 5, 7⟩,
      [⟨4, 1⟩, ⟨21 / 5, 3⟩, ⟨22 / 5, 5⟩, ⟨23 / 5, 7⟩], 0, 0⟩
    [0, 5, 3] 3 9 5 0 ⟨4, 1⟩ ⟨21 / 5, 3⟩ ⟨22 / 5, 5⟩ ⟨23 / 5, 7⟩
    ⟨23 / 5, 7⟩ (by norm_num) rfl rfl (by norm_num) (by norm_num) rfl
    (by norm_num) rfl (by norm_num [abs_of_pos])
  rw [h]
  norm_num

end PidSim
